import Mathlib

/-!
Verification development for the storefront checkout workflow
(`src/app/main.py` and `src/app/models.py` of the repository).

The checkout workflow and the payment-confirmation handler are embedded
shallowly as pure Lean functions over an explicit database and session
state.  Monetary amounts (the `Float` columns `Product.price`,
`Order.total_amount`, `OrderItem.unit_price`, `OrderItem.line_total`) are
modelled as exact rationals `ℚ`; the arithmetic performed by the code
(`price * qty` per line, a running `subtotal` accumulated in cart order,
`int(price * 100)` for the payment adapter) is translated operation by
operation.  Presentation-only columns (descriptions, image urls,
categories, timestamps) do not participate in any claim and are omitted
from the record types.  The external payment adapter (Stripe) is modelled
by a `Bool` flag (whether `STRIPE_SECRET_KEY` is set) plus an
`Option String` outcome for the one outbound `create_session` call:
`some url` is a successful call returning a redirect url, `none` is a call
that raises.
-/

namespace Shop

/-- A catalog product (`Product` in `models.py`): id, name and price. -/
structure Product where
  id : Nat
  name : String
  price : ℚ
deriving DecidableEq, Repr

/-- A user (`User` in `models.py`): only the id matters to checkout. -/
structure User where
  id : Nat
  name : String
  email : String
deriving DecidableEq, Repr

/-- A persisted order (`Order` in `models.py`). -/
structure Order where
  id : Nat
  user_id : Option Nat
  total_amount : ℚ
  status : String
deriving DecidableEq, Repr

/-- A persisted order line (`OrderItem` in `models.py`). -/
structure OrderItem where
  order_id : Nat
  product_id : Nat
  quantity : Nat
  unit_price : ℚ
  line_total : ℚ
deriving DecidableEq, Repr

/-- The durable store: the four tables plus the autoincrement counter that
`db.flush()` draws the next order id from. -/
structure DB where
  products : List Product
  users : List User
  orders : List Order
  order_items : List OrderItem
  nextOrderId : Nat
deriving DecidableEq, Repr

/-- One entry of the `last_order` session snapshot
(`order_items_for_session` in `main.py`): product name, quantity and line
total, flattened from the nested `{"product": {"name": ...}, ...}` dict. -/
structure SessionItem where
  product_name : String
  quantity : Nat
  line_total : ℚ
deriving DecidableEq, Repr

/-- The `last_order` snapshot stashed in the session by `checkout`. -/
structure LastOrder where
  order_id : Nat
  items : List SessionItem
  subtotal : ℚ
deriving DecidableEq, Repr

/-- Per-user session state: the cart (a product-id → quantity mapping,
kept as an insertion-ordered association list exactly like a Python dict),
the optional `last_order` snapshot, and the optional `user_id`. -/
structure Session where
  cart : List (Nat × Nat)
  last_order : Option LastOrder
  user_id : Option Nat
deriving DecidableEq, Repr

/-- One line item handed to the payment adapter
(`stripe_line_items` entries in `main.py`): product name,
`unit_amount` in minor currency units, quantity. -/
structure StripeLineItem where
  name : String
  unit_amount : ℤ
  quantity : Nat
deriving DecidableEq, Repr

/-- A handler response: either a redirect (`RedirectResponse(url, status)`)
or a rendered template carrying the items and subtotal it is given. -/
inductive Response where
  | redirect (url : String) (code : Nat)
  | template (name : String) (items : List SessionItem) (subtotal : ℚ)
deriving DecidableEq, Repr

/-- What a `POST /checkout` call leaves behind: the database, the session,
and the HTTP response. -/
structure CheckoutResult where
  db : DB
  sess : Session
  response : Response
deriving DecidableEq, Repr

/-- Python `int(...)` applied to a rational: truncation toward zero
(`Int.tdiv` is T-division). -/
def intTrunc (q : ℚ) : ℤ :=
  Int.tdiv q.num (q.den : ℤ)

/-- The batch catalog lookup `db.query(Product).filter(Product.id.in_(...))`
followed by `product_map.get(pid)`: resolve one product id. -/
def findProduct (products : List Product) (pid : Nat) : Option Product :=
  products.find? (fun p => p.id == pid)

/-- `db.query(Order).get(order_id)`. -/
def findOrder (orders : List Order) (oid : Nat) : Option Order :=
  orders.find? (fun o => o.id == oid)

/-- The resolvable cart lines, in cart (dict-insertion) order: the loop
`for pid_str, qty in cart.items()` with unresolvable ids skipped by
`if not product: continue`. -/
def cartLines (products : List Product) (cart : List (Nat × Nat)) :
    List (Product × Nat) :=
  cart.filterMap (fun e => (findProduct products e.1).map (fun p => (p, e.2)))

/-- The running `subtotal += line_total` accumulation over the resolvable
lines, starting from `0.0`, in cart order. -/
def subtotalOf (lines : List (Product × Nat)) : ℚ :=
  lines.foldl (fun acc pq => acc + pq.1.price * pq.2) 0

/-- The `order_items_for_session` list built by the first cart loop. -/
def checkoutSessionItems (db : DB) (sess : Session) : List SessionItem :=
  (cartLines db.products sess.cart).map
    (fun pq => ⟨pq.1.name, pq.2, pq.1.price * pq.2⟩)

/-- The `stripe_line_items` list: built only when `STRIPE_SECRET_KEY` is
set, one entry per resolvable line, with
`unit_amount = int(product.price * 100)`.  The multiplication is taken
here over exact rationals, whereas the source performs it in IEEE
binary64 before `int()` truncates — so the numeric value of
`unit_amount` is idealized; the rest of the development uses this list
only through its emptiness, which the idealization cannot change. -/
def stripeLineItems (cfg : Bool) (products : List Product)
    (cart : List (Nat × Nat)) : List StripeLineItem :=
  if cfg then
    (cartLines products cart).map
      (fun pq => ⟨pq.1.name, intTrunc (pq.1.price * 100), pq.2⟩)
  else []

/-- `_get_current_user`: `user_id` from the session (Python truthiness:
`None` and `0` both fail `if not user_id`), then `db.query(User).get`. -/
def currentUser (db : DB) (sess : Session) : Option User :=
  match sess.user_id with
  | none => none
  | some uid => if uid = 0 then none else db.users.find? (fun u => u.id == uid)

/-- The `Order` row persisted by `checkout`: id from the autoincrement
counter, `user.id if user else None`, the accumulated subtotal as
`total_amount`, and status `"pending" if STRIPE_SECRET_KEY else "paid"`. -/
def checkoutOrder (cfg : Bool) (db : DB) (sess : Session) : Order :=
  ⟨db.nextOrderId, Option.map User.id (currentUser db sess),
   subtotalOf (cartLines db.products sess.cart),
   if cfg then "pending" else "paid"⟩

/-- The `OrderItem` rows persisted by the second cart loop: one per
resolvable line, carrying the frozen `quantity`, `unit_price = product.price`
and `line_total = product.price * qty`. -/
def checkoutItems (db : DB) (sess : Session) : List OrderItem :=
  (cartLines db.products sess.cart).map
    (fun pq => ⟨db.nextOrderId, pq.1.id, pq.2, pq.1.price, pq.1.price * pq.2⟩)

/-- The `POST /checkout` handler (`checkout` in `main.py`).

* An empty cart returns a 303 redirect to `/cart` with nothing touched.
* Otherwise the order and its items are committed, the `last_order`
  snapshot is stashed, the cart is cleared, and then:
  if the adapter is configured and at least one resolvable line exists,
  the `create_session` call is made — a successful call yields a 303
  redirect to its url, a raising call is swallowed and falls through to
  the local success template, exactly like the bare `except: pass`;
  otherwise the local success template is rendered directly. -/
def checkout (cfg : Bool) (stripeOutcome : Option String) (db : DB)
    (sess : Session) : CheckoutResult :=
  if sess.cart = [] then ⟨db, sess, .redirect "/cart" 303⟩
  else
    ⟨{ db with
        orders := db.orders ++ [checkoutOrder cfg db sess],
        order_items := db.order_items ++ checkoutItems db sess,
        nextOrderId := db.nextOrderId + 1 },
     { sess with
        cart := [],
        last_order := some ⟨db.nextOrderId, checkoutSessionItems db sess,
                            subtotalOf (cartLines db.products sess.cart)⟩ },
     if cfg ∧ stripeLineItems cfg db.products sess.cart ≠ [] then
       match stripeOutcome with
       | some url => Response.redirect url 303
       | none => Response.template "checkout_success.html"
           (checkoutSessionItems db sess)
           (subtotalOf (cartLines db.products sess.cart))
     else
       Response.template "checkout_success.html"
         (checkoutSessionItems db sess)
         (subtotalOf (cartLines db.products sess.cart))⟩

/-- `order.status = "paid"; db.commit()` on the looked-up order object:
with ids unique this rewrites exactly the matching row. -/
def setOrderStatus (orders : List Order) (oid : Nat) (s : String) :
    List Order :=
  orders.map (fun o => if o.id = oid then { o with status := s } else o)

/-- The `GET /checkout/success` handler (`checkout_success` in `main.py`).
The `sid` argument is the `session_id` query parameter; the handler body
never reads it and never contacts the payment adapter.  Without a
`last_order` snapshot it redirects home; otherwise, when the snapshot's
`order_id` is truthy and resolves, a non-`"paid"` order is marked
`"paid"`, and the template is rendered from the session snapshot alone. -/
def checkout_success (db : DB) (sess : Session) (sid : Option String) :
    DB × Response :=
  match sess.last_order with
  | none => (db, .redirect "/" 303)
  | some lo =>
      let db2 :=
        if lo.order_id ≠ 0 then
          match findOrder db.orders lo.order_id with
          | some o =>
              if o.status ≠ "paid" then
                { db with orders := setOrderStatus db.orders lo.order_id "paid" }
              else db
          | none => db
        else db
      (db2, .template "checkout_success.html" lo.items lo.subtotal)

/-- Modelled from the spec: "unit_price is copied from the Product's price
at checkout time (never recomputed later even if Product.price changes)".
No code in the repository ever changes a product's price; this definition
models such a price change — a rewrite of the products table only — so the
snapshot half of that sentence can be stated against it. -/
def updateProductPrice (db : DB) (pid : Nat) (newPrice : ℚ) : DB :=
  let reprice := fun (p : Product) =>
    if p.id = pid then { p with price := newPrice } else p
  { db with products := db.products.map reprice }

/-! ### Helper lemmas -/

theorem foldl_add_init (l : List (Product × Nat)) (a : ℚ) :
    l.foldl (fun (acc : ℚ) pq => acc + pq.1.price * pq.2) a
      = a + (l.map (fun pq => pq.1.price * (pq.2 : ℚ))).sum := by
  induction l generalizing a with
  | nil => simp
  | cons x xs ih => simp [ih, add_assoc]

theorem subtotalOf_eq_sum (l : List (Product × Nat)) :
    subtotalOf l = (l.map (fun pq => pq.1.price * (pq.2 : ℚ))).sum := by
  simpa using foldl_add_init l 0

theorem findProduct_id {products : List Product} {pid : Nat} {p : Product}
    (h : findProduct products pid = some p) : p.id = pid := by
  simpa using List.find?_some h

theorem mem_cartLines {products : List Product} {cart : List (Nat × Nat)}
    {pq : Product × Nat} (h : pq ∈ cartLines products cart) :
    findProduct products pq.1.id = some pq.1 := by
  rcases List.mem_filterMap.1 h with ⟨e, _he, hm⟩
  rcases Option.map_eq_some'.1 hm with ⟨p, hp, rfl⟩
  simpa [findProduct_id hp] using hp

theorem cartLines_eq_nil {products : List Product} {cart : List (Nat × Nat)}
    (h : ∀ e ∈ cart, findProduct products e.1 = none) :
    cartLines products cart = [] := by
  rw [cartLines, List.filterMap_eq_nil_iff]
  intro e he
  rw [h e he]
  rfl

theorem findOrder_append (l1 l2 : List Order) (oid : Nat) :
    (∀ o ∈ l1, o.id ≠ oid) → findOrder (l1 ++ l2) oid = findOrder l2 oid := by
  induction l1 with
  | nil => intro _; rfl
  | cons o os ih =>
      intro h
      have ho : (o.id == oid) = false := by simpa using h o (by simp)
      have := ih (fun o' h' => h o' (by simp [h']))
      simp only [findOrder] at this ⊢
      simpa [List.find?_cons, ho] using this

theorem findOrder_setOrderStatus (orders : List Order) (oid : Nat) (s : String) :
    findOrder (setOrderStatus orders oid s) oid =
      (findOrder orders oid).map (fun o => { o with status := s }) := by
  induction orders with
  | nil => rfl
  | cons o os ih =>
      by_cases h : o.id = oid
      · simp [findOrder, setOrderStatus, List.find?_cons, h]
      · have hb : (o.id == oid) = false := by simpa using h
        simp only [findOrder, setOrderStatus, List.map_cons] at ih ⊢
        simpa [List.find?_cons, h, hb] using ih

/-! ### Concrete data used by the witnesses -/

def wP : Product := ⟨1, "A", 5⟩

def wDB : DB := ⟨[wP], [], [], [], 1⟩

def wSess : Session := ⟨[(1, 2)], none, none⟩

/-! ### The claims -/

/-- C1: for every checkout of a non-empty session cart in which every
product id resolves against the catalog, the persisted order's
`total_amount` equals the sum of the `line_total` values of the
`OrderItem` rows persisted for that order, exactly. -/
theorem checkout_total_amount_eq_sum_line_totals
    (cfg : Bool) (out : Option String) (db : DB) (sess : Session)
    (hne : sess.cart ≠ [])
    (hres : ∀ e ∈ sess.cart, findProduct db.products e.1 ≠ none)
    (hfresh : ∀ it ∈ db.order_items, it.order_id ≠ db.nextOrderId) :
    ∃ o, (checkout cfg out db sess).db.orders = db.orders ++ [o] ∧
      o.total_amount =
        (((checkout cfg out db sess).db.order_items.filter
            (fun it => it.order_id == db.nextOrderId)).map
          (fun it => it.line_total)).sum := by
  refine ⟨checkoutOrder cfg db sess, by simp [checkout, hne], ?_⟩
  have hdb : (checkout cfg out db sess).db.order_items
      = db.order_items ++ checkoutItems db sess := by
    simp [checkout, hne]
  rw [hdb, List.filter_append]
  have h1 : db.order_items.filter (fun it => it.order_id == db.nextOrderId)
      = [] := by
    rw [List.filter_eq_nil_iff]
    intro it hit
    simpa using hfresh it hit
  have h2 : (checkoutItems db sess).filter
      (fun it => it.order_id == db.nextOrderId) = checkoutItems db sess := by
    rw [List.filter_eq_self]
    intro it hit
    rw [checkoutItems] at hit
    rcases List.mem_map.1 hit with ⟨pq, _, rfl⟩
    simp
  rw [h1, h2, List.nil_append, checkoutItems, List.map_map]
  show subtotalOf (cartLines db.products sess.cart) = _
  rw [subtotalOf_eq_sum]
  rfl

/-- Closed witness for C1: a cart holding two units of a resolvable
product. -/
theorem checkout_total_amount_eq_sum_line_totals_witness :
    (wSess.cart ≠ [] ∧
      (∀ e ∈ wSess.cart, findProduct wDB.products e.1 ≠ none) ∧
      (∀ it ∈ wDB.order_items, it.order_id ≠ wDB.nextOrderId)) ∧
    (∃ o, (checkout false none wDB wSess).db.orders = wDB.orders ++ [o] ∧
      o.total_amount =
        (((checkout false none wDB wSess).db.order_items.filter
            (fun it => it.order_id == wDB.nextOrderId)).map
          (fun it => it.line_total)).sum) :=
  ⟨⟨by decide, by decide, by decide⟩,
    checkout_total_amount_eq_sum_line_totals false none wDB wSess
      (by decide) (by decide) (by decide)⟩

/-- C2: every order item created by a checkout satisfies
`line_total = unit_price * quantity` with `unit_price` the referenced
product's price as resolved during that checkout; and a later change to a
product's price rewrites only the products table, leaving every stored
order item untouched. -/
theorem orderItem_snapshot
    (cfg : Bool) (out : Option String) (db : DB) (sess : Session)
    (db2 : DB) (pid : Nat) (pr : ℚ) :
    (∃ created,
      (checkout cfg out db sess).db.order_items = db.order_items ++ created ∧
      ∀ it ∈ created,
        it.line_total = it.unit_price * it.quantity ∧
        ∃ p, findProduct db.products it.product_id = some p ∧
          it.unit_price = p.price) ∧
    (updateProductPrice db2 pid pr).order_items = db2.order_items := by
  constructor
  · by_cases h : sess.cart = []
    · exact ⟨[], by simp [checkout, h], by simp⟩
    · refine ⟨checkoutItems db sess, by simp [checkout, h], ?_⟩
      intro it hit
      rw [checkoutItems] at hit
      rcases List.mem_map.1 hit with ⟨pq, hpq, rfl⟩
      exact ⟨rfl, pq.1, mem_cartLines hpq, rfl⟩
  · rfl

/-- C3: checking out an empty session cart changes neither the database
nor the session and returns a 303 redirect to the cart view. -/
theorem checkout_empty_cart (cfg : Bool) (out : Option String) (db : DB)
    (sess : Session) (h : sess.cart = []) :
    checkout cfg out db sess = ⟨db, sess, .redirect "/cart" 303⟩ := by
  simp [checkout, h]

/-- Closed witness for C3: an empty cart. -/
theorem checkout_empty_cart_witness :
    ((⟨[], none, none⟩ : Session).cart = []) ∧
    checkout false none wDB ⟨[], none, none⟩
      = ⟨wDB, ⟨[], none, none⟩, .redirect "/cart" 303⟩ :=
  ⟨rfl, checkout_empty_cart false none wDB ⟨[], none, none⟩ rfl⟩

/-- C4: every checkout of a non-empty cart creates exactly one order whose
initial status is `"pending"` when the payment adapter is configured and
`"paid"` when it is not. -/
theorem checkout_initial_status (cfg : Bool) (out : Option String)
    (db : DB) (sess : Session) (hne : sess.cart ≠ []) :
    ∃ o, (checkout cfg out db sess).db.orders = db.orders ++ [o] ∧
      o.status = (if cfg then "pending" else "paid") :=
  ⟨checkoutOrder cfg db sess, by simp [checkout, hne], rfl⟩

/-- Closed witness for C4: the configured case on a non-empty cart. -/
theorem checkout_initial_status_witness :
    (wSess.cart ≠ []) ∧
    ∃ o, (checkout true (some "https://pay.example/abc") wDB wSess).db.orders
        = wDB.orders ++ [o] ∧
      o.status = (if true then "pending" else "paid") :=
  ⟨by decide,
    checkout_initial_status true (some "https://pay.example/abc") wDB wSess
      (by decide)⟩

/-- C5: when the payment adapter is configured but its `create_session`
call raises, a checkout of a non-empty cart still returns the local
confirmation view, and the already-committed order's durable status is
`"pending"`. -/
theorem checkout_adapter_failure (db : DB) (sess : Session)
    (hne : sess.cart ≠ [])
    (hfresh : ∀ o ∈ db.orders, o.id ≠ db.nextOrderId) :
    (∃ items st, (checkout true none db sess).response
        = Response.template "checkout_success.html" items st) ∧
    ∃ o, findOrder (checkout true none db sess).db.orders db.nextOrderId
        = some o ∧ o.status = "pending" := by
  constructor
  · refine ⟨checkoutSessionItems db sess,
      subtotalOf (cartLines db.products sess.cart), ?_⟩
    by_cases hs : stripeLineItems true db.products sess.cart = []
    · simp [checkout, hne, hs]
    · simp [checkout, hne, hs]
  · refine ⟨checkoutOrder true db sess, ?_, rfl⟩
    have hord : (checkout true none db sess).db.orders
        = db.orders ++ [checkoutOrder true db sess] := by
      simp [checkout, hne]
    rw [hord, findOrder_append db.orders _ _ hfresh]
    simp [findOrder, checkoutOrder, List.find?_cons]

/-- Closed witness for C5: configured adapter whose call raises, on a
resolvable non-empty cart. -/
theorem checkout_adapter_failure_witness :
    (wSess.cart ≠ [] ∧ (∀ o ∈ wDB.orders, o.id ≠ wDB.nextOrderId)) ∧
    ((∃ items st, (checkout true none wDB wSess).response
        = Response.template "checkout_success.html" items st) ∧
      ∃ o, findOrder (checkout true none wDB wSess).db.orders wDB.nextOrderId
          = some o ∧ o.status = "pending") :=
  ⟨⟨by decide, by decide⟩,
    checkout_adapter_failure wDB wSess (by decide) (by decide)⟩

/-- C6: checking out a non-empty cart none of whose ids resolve still
creates one order, with `total_amount = 0` and no order items, and clears
the session cart. -/
theorem checkout_stale_cart (cfg : Bool) (out : Option String) (db : DB)
    (sess : Session) (hne : sess.cart ≠ [])
    (hstale : ∀ e ∈ sess.cart, findProduct db.products e.1 = none) :
    ∃ o, (checkout cfg out db sess).db.orders = db.orders ++ [o] ∧
      o.total_amount = 0 ∧
      (checkout cfg out db sess).db.order_items = db.order_items ∧
      (checkout cfg out db sess).sess.cart = [] := by
  have hcl : cartLines db.products sess.cart = [] := cartLines_eq_nil hstale
  refine ⟨checkoutOrder cfg db sess, by simp [checkout, hne], ?_, ?_, ?_⟩
  · show subtotalOf (cartLines db.products sess.cart) = 0
    rw [hcl]
    rfl
  · have hdb : (checkout cfg out db sess).db.order_items
        = db.order_items ++ checkoutItems db sess := by
      simp [checkout, hne]
    rw [hdb, checkoutItems, hcl]
    simp
  · simp [checkout, hne]

/-- Closed witness for C6: a cart holding only a stale product id. -/
theorem checkout_stale_cart_witness :
    ((⟨[(99, 1)], none, none⟩ : Session).cart ≠ [] ∧
      (∀ e ∈ (⟨[(99, 1)], none, none⟩ : Session).cart,
        findProduct wDB.products e.1 = none)) ∧
    ∃ o, (checkout false none wDB ⟨[(99, 1)], none, none⟩).db.orders
        = wDB.orders ++ [o] ∧
      o.total_amount = 0 ∧
      (checkout false none wDB ⟨[(99, 1)], none, none⟩).db.order_items
        = wDB.order_items ∧
      (checkout false none wDB ⟨[(99, 1)], none, none⟩).sess.cart = [] :=
  ⟨⟨by decide, by decide⟩,
    checkout_stale_cart false none wDB ⟨[(99, 1)], none, none⟩
      (by decide) (by decide)⟩

/-- C7: every checkout of a non-empty cart leaves the session cart empty,
whatever the adapter configuration and outcome. -/
theorem checkout_clears_cart (cfg : Bool) (out : Option String) (db : DB)
    (sess : Session) (hne : sess.cart ≠ []) :
    (checkout cfg out db sess).sess.cart = [] := by
  simp [checkout, hne]

/-- Closed witness for C7: a non-empty cart with a configured adapter
whose call raises. -/
theorem checkout_clears_cart_witness :
    (wSess.cart ≠ []) ∧ (checkout true none wDB wSess).sess.cart = [] :=
  ⟨by decide, checkout_clears_cart true none wDB wSess (by decide)⟩

/-- C8: the confirmation handler is idempotent on order status: with a
`last_order` snapshot whose (truthy) order id resolves, one invocation
leaves that order's durable status `"paid"`, and a second invocation with
the same snapshot returns the identical database and response. -/
theorem checkout_success_idempotent (db : DB) (sess : Session)
    (sid : Option String) (lo : LastOrder)
    (hlo : sess.last_order = some lo) (hid : lo.order_id ≠ 0)
    (o : Order) (ho : findOrder db.orders lo.order_id = some o) :
    (∃ o1, findOrder (checkout_success db sess sid).1.orders lo.order_id
        = some o1 ∧ o1.status = "paid") ∧
    checkout_success (checkout_success db sess sid).1 sess sid
      = checkout_success db sess sid := by
  by_cases hp : o.status = "paid"
  · have h1 : checkout_success db sess sid
        = (db, Response.template "checkout_success.html" lo.items lo.subtotal) := by
      simp [checkout_success, hlo, hid, ho, hp]
    refine ⟨⟨o, by rw [h1]; exact ho, hp⟩, ?_⟩
    rw [h1]
    exact h1
  · have h1 : checkout_success db sess sid
        = ({ db with orders := setOrderStatus db.orders lo.order_id "paid" },
           Response.template "checkout_success.html" lo.items lo.subtotal) := by
      simp [checkout_success, hlo, hid, ho, hp]
    have hfind : findOrder (setOrderStatus db.orders lo.order_id "paid")
        lo.order_id = some { o with status := "paid" } := by
      rw [findOrder_setOrderStatus, ho]
      rfl
    refine ⟨⟨{ o with status := "paid" }, by rw [h1]; exact hfind, rfl⟩, ?_⟩
    rw [h1]
    simp [checkout_success, hlo, hid, hfind]

def wOrder : Order := ⟨1, none, 10, "pending"⟩

def wLO : LastOrder := ⟨1, [⟨"A", 2, 10⟩], 10⟩

def wDB8 : DB := ⟨[], [], [wOrder], [], 2⟩

def wSess8 : Session := ⟨[], some wLO, none⟩

/-- Closed witness for C8: a pending order referenced by the session
snapshot. -/
theorem checkout_success_idempotent_witness :
    (wSess8.last_order = some wLO ∧ wLO.order_id ≠ 0 ∧
      findOrder wDB8.orders wLO.order_id = some wOrder) ∧
    ((∃ o1, findOrder (checkout_success wDB8 wSess8 none).1.orders
        wLO.order_id = some o1 ∧ o1.status = "paid") ∧
      checkout_success (checkout_success wDB8 wSess8 none).1 wSess8 none
        = checkout_success wDB8 wSess8 none) :=
  ⟨⟨rfl, by decide, rfl⟩,
    checkout_success_idempotent wDB8 wSess8 none wLO rfl (by decide)
      wOrder rfl⟩

/-- C10: the confirmation handler's result — response and resulting
database, hence resulting order status — is independent of the
`session_id` query parameter (including its absence); the embedded handler
takes no payment-adapter input at all, mirroring the code, which marks the
order paid from the session snapshot without any adapter verification. -/
theorem checkout_success_ignores_session_id (db : DB) (sess : Session)
    (sid1 sid2 : Option String) :
    checkout_success db sess sid1 = checkout_success db sess sid2 := rfl

end Shop
